import Mathlib

/-!
Shallow embedding of the ErgoMate standing-desk BLE controller
(`custom_components/ergomate/desk_api.py` and `desk_const.py`).

Byte strings are modelled as `List Nat` (each entry a byte value), real-valued
heights as `ℚ`, Python exceptions as explicit error values, and the
controller's mutable object state as an explicit `DeskState` record threaded
through each operation.  Transport effects (BLE connect attempts, GATT writes,
notification arming, client teardown) are recorded in an event trace so that
ordering properties can be stated.
-/

namespace Ergomate

/-! ## Protocol constants (`desk_const.py`) -/

def CMD_UP : Nat := 0x20
def CMD_DOWN : Nat := 0x40
def CMD_STOP : Nat := 0x00
def HEADER : Nat := 0xA5
def RESERVED : Nat := 0x00
def TERMINATOR : Nat := 0xFF

/-! ## Protocol codec (`desk_api.py`, module-level functions) -/

/-- `_create_command` — 5-byte directional command packet with XOR checksum:
`[Header, Reserved, Command, Checksum, Terminator]`, `Checksum = 0xFF XOR cmd`. -/
def create_command (cmd_byte : Nat) : List Nat :=
  let checksum := TERMINATOR ^^^ cmd_byte
  [HEADER, RESERVED, cmd_byte, checksum, TERMINATOR]

/-- `_create_height_command` — 9-byte absolute-height packet.  The height (mm)
is clamped to `[650, 1300]` (`max(650, min(1300, height_mm))`); the checksum
XORs bytes 2–6 (param1 through zero2), deliberately excluding the 0xA8 command
byte. -/
def create_height_command (height_mm : Int) : List Nat :=
  let clamped : Nat := (max 650 (min 1300 height_mm)).toNat
  let header := 0xA6
  let cmd := 0xA8
  let param1 := 0x01
  let high_byte := (clamped >>> 8) &&& 0xFF
  let low_byte := clamped &&& 0xFF
  let zero1 := 0x00
  let zero2 := 0x00
  let terminator := 0xFF
  let checksum := param1 ^^^ high_byte ^^^ low_byte ^^^ zero1 ^^^ zero2
  [header, cmd, param1, high_byte, low_byte, zero1, zero2, checksum, terminator]

/-- Independent checksum verifier for 5-byte directional frames: byte 3 must
equal terminator XOR command byte. -/
def directionalChecksumOk (frame : List Nat) : Bool :=
  match frame with
  | [_, _, cmd, chk, term] => chk == term ^^^ cmd
  | _ => false

/-- Independent checksum verifier for 9-byte height frames: byte 7 must equal
the XOR of bytes 2–6, excluding the command byte (byte 1). -/
def heightChecksumOk (frame : List Nat) : Bool :=
  match frame with
  | [_, _, p1, hb, lb, z1, z2, chk, _] => chk == p1 ^^^ hb ^^^ lb ^^^ z1 ^^^ z2
  | _ => false

/-! ## Python `int(str)` parsing, as used by `_parse_height`

`int(data.decode('ascii'))` accepts: optional surrounding whitespace, an
optional single `+`/`-` sign, then decimal digits optionally separated by
single underscores (underscores only between digits).  Anything else raises
`ValueError`; a byte ≥ 0x80 raises `UnicodeDecodeError`. -/

/-- Characters CPython's `int(str)` treats as strippable whitespace, restricted
to the ASCII range (codes 9–13 and 32). -/
def isPySpace (c : Char) : Bool :=
  (9 ≤ c.toNat && c.toNat ≤ 13) || c.toNat == 32

/-- Continuation of a digit run: digits, with single underscores allowed only
between digits. -/
def digitsTail : List Char → Bool
  | [] => true
  | [c] => c.isDigit
  | c :: d :: rest =>
    if c.isDigit then digitsTail (d :: rest)
    else c == '_' && d.isDigit && digitsTail rest

/-- A nonempty digit run with optional single underscores between digits. -/
def digitsUnd : List Char → Bool
  | [] => false
  | c :: rest => c.isDigit && digitsTail rest

/-- Numeric value of a digit run, ignoring underscores. -/
def digitsVal (cs : List Char) : Int :=
  ((cs.filter Char.isDigit).foldl (fun a c => a * 10 + (c.toNat - 48)) 0 : Nat)

/-- Strip leading and trailing whitespace, as `int(str)` does. -/
def trimPy (cs : List Char) : List Char :=
  ((cs.dropWhile isPySpace).reverse.dropWhile isPySpace).reverse

/-- `int(s)` on a decoded ASCII string: `some` the parsed integer, `none` for
`ValueError`. -/
def pyIntOfChars (cs : List Char) : Option Int :=
  match trimPy cs with
  | [] => none
  | c :: rest =>
    if c = '+' then (if digitsUnd rest then some (digitsVal rest) else none)
    else if c = '-' then (if digitsUnd rest then some (-(digitsVal rest)) else none)
    else if digitsUnd (c :: rest) then some (digitsVal (c :: rest)) else none

/-- The integer stage of `ErgomateDesk._parse_height`:
`height_mm = int(data.decode('ascii'))` for 4-byte data; `none` when the
length differs from 4 or a ValueError / UnicodeDecodeError is caught. -/
def parse_height_mm (data : List Nat) : Option Int :=
  if data.length = 4 then
    if data.all (· < 128) then
      pyIntOfChars (data.map (fun b => Char.ofNat b))
    else none
  else none

/-- `ErgomateDesk._parse_height` — the height in cm (`height_cm = height_mm / 10.0`)
when the integer stage succeeds; `None` otherwise. -/
def parse_height (data : List Nat) : Option ℚ :=
  (parse_height_mm data).map (fun height_mm => (height_mm : ℚ) / 10)

/-! ## Controller state (`ErgomateDesk`)

The mutable fields of the Python object.  `clientExists`/`clientConnected`
model `self._client is not None` and `self._client.is_connected`;
`reconnectTask` models `self._reconnect_task` being a live task handle. -/

structure DeskState where
  address : String
  height_offset : ℚ
  is_connected : Bool
  clientExists : Bool
  clientConnected : Bool
  callbacks : List Nat
  current_height : Option ℚ
  raw_height : Option ℚ
  is_moving : Bool
  reconnectTask : Bool
  shutdown : Bool
deriving Repr, DecidableEq

/-- `ErgomateDesk.__init__` (`height_offset` defaults to `0.0`). -/
def init_desk (address : String) (height_offset : ℚ) : DeskState :=
  { address := address
    height_offset := height_offset
    is_connected := false
    clientExists := false
    clientConnected := false
    callbacks := []
    current_height := none
    raw_height := none
    is_moving := false
    reconnectTask := false
    shutdown := false }

/-- The public `is_connected` property:
`self._is_connected and self._client is not None and self._client.is_connected`. -/
def publicIsConnected (s : DeskState) : Bool :=
  s.is_connected && s.clientExists && s.clientConnected

/-- Python exceptions that cross the operations modelled here. -/
inductive DeskError
  | connectionError
  | bleakError
deriving DecidableEq, Repr

/-- Transport-level effects, recorded in order of occurrence.
`cbInvoke c data r` records that subscriber `c` was invoked with the raw
frame `data` and whether it raised. -/
inductive Event
  | connectAttempt
  | write (frame : List Nat)
  | startNotify
  | stopNotify
  | clientDisconnect
  | cancelSupervisor
  | heightSet (raw : ℚ)
  | cbInvoke (id : Nat) (data : List Nat) (raised : Bool)
deriving DecidableEq, Repr

/-- Behaviour of the external transport and of the registered subscribers
during one operation: whether `BleakClient.connect` succeeds, whether a GATT
write succeeds, whether `start_notify` succeeds, and which subscribers raise. -/
structure Transport where
  connectOk : Bool
  writeOk : Bool
  notifyOk : Bool
  cbRaises : Nat → Bool

/-- Outcome of one controller operation: the exception that escaped (if any),
the controller state after it (Python mutations survive a raise), and the
transport events it performed. -/
structure Step where
  err : Option DeskError
  state : DeskState
  events : List Event
deriving Repr

/-- `ErgomateDesk._establish_connection` — no-op when already connected;
otherwise replaces `self._client` with a fresh client and attempts
`client.connect()`; on success sets `self._is_connected = True`, on failure
the `BleakError` propagates. -/
def establish_connection (t : Transport) (s : DeskState) : Step :=
  if publicIsConnected s then ⟨none, s, []⟩
  else
    let s1 := { s with clientExists := true, clientConnected := false }
    if t.connectOk then
      ⟨none, { s1 with clientConnected := true, is_connected := true },
       [Event.connectAttempt]⟩
    else
      ⟨some DeskError.bleakError, s1, [Event.connectAttempt]⟩

/-- `ErgomateDesk.connect` — clears `self._shutdown`, establishes the
connection, then starts the monitor task when none is running. -/
def connect (t : Transport) (s : DeskState) : Step :=
  let r := establish_connection t { s with shutdown := false }
  match r.err with
  | some e => ⟨some e, r.state, r.events⟩
  | none =>
    if r.state.reconnectTask then ⟨none, r.state, r.events⟩
    else ⟨none, { r.state with reconnectTask := true }, r.events⟩

/-- `ErgomateDesk.subscribe_notifications` — raises `ConnectionError` when not
connected, otherwise performs `start_notify` (which may raise). -/
def subscribe_notifications (t : Transport) (s : DeskState) : Step :=
  if publicIsConnected s then
    if t.notifyOk then ⟨none, s, [Event.startNotify]⟩
    else ⟨some DeskError.bleakError, s, [Event.startNotify]⟩
  else ⟨some DeskError.connectionError, s, []⟩

/-- The shared reconnect-once block at the head of `_send_command` and
`move_to_height`: when not connected, try `self.connect()` and (when callbacks
are registered) `self.subscribe_notifications()`; any exception is re-raised
as `ConnectionError`. -/
def ensure_connected (t : Transport) (s : DeskState) : Step :=
  if publicIsConnected s then ⟨none, s, []⟩
  else
    let r := connect t s
    match r.err with
    | some _ => ⟨some DeskError.connectionError, r.state, r.events⟩
    | none =>
      if r.state.callbacks.isEmpty then ⟨none, r.state, r.events⟩
      else
        let r2 := subscribe_notifications t r.state
        match r2.err with
        | some _ => ⟨some DeskError.connectionError, r2.state, r.events ++ r2.events⟩
        | none => ⟨none, r2.state, r.events ++ r2.events⟩

/-- `ErgomateDesk._send_command` — reconnect once if needed, then write the
5-byte command frame with response. -/
def send_command (t : Transport) (cmd_byte : Nat) (s : DeskState) : Step :=
  let pre := ensure_connected t s
  match pre.err with
  | some e => ⟨some e, pre.state, pre.events⟩
  | none =>
    let command := create_command cmd_byte
    if t.writeOk then ⟨none, pre.state, pre.events ++ [Event.write command]⟩
    else ⟨some DeskError.bleakError, pre.state, pre.events ++ [Event.write command]⟩

/-- `ErgomateDesk.move_up` — sets `self._is_moving = True`, then sends `CMD_UP`. -/
def move_up (t : Transport) (s : DeskState) : Step :=
  send_command t CMD_UP { s with is_moving := true }

/-- `ErgomateDesk.move_down` — sets `self._is_moving = True`, then sends `CMD_DOWN`. -/
def move_down (t : Transport) (s : DeskState) : Step :=
  send_command t CMD_DOWN { s with is_moving := true }

/-- `ErgomateDesk.stop` — sends `CMD_STOP`; only when the send returns without
raising is `self._is_moving` cleared. -/
def stop (t : Transport) (s : DeskState) : Step :=
  let r := send_command t CMD_STOP s
  match r.err with
  | some e => ⟨some e, r.state, r.events⟩
  | none => ⟨none, { r.state with is_moving := false }, r.events⟩

/-- Python `int()` truncation toward zero, for `int(height_cm * 10)`. -/
def pyTrunc (q : ℚ) : Int := if 0 ≤ q then ⌊q⌋ else ⌈q⌉

/-- `ErgomateDesk.move_to_height` — reconnect once if needed, convert cm to mm,
build the height frame, set `self._is_moving = True`, then write the frame. -/
def move_to_height (t : Transport) (height_cm : ℚ) (s : DeskState) : Step :=
  let pre := ensure_connected t s
  match pre.err with
  | some e => ⟨some e, pre.state, pre.events⟩
  | none =>
    let height_mm := pyTrunc (height_cm * 10)
    let command := create_height_command height_mm
    let s2 := { pre.state with is_moving := true }
    if t.writeOk then ⟨none, s2, pre.events ++ [Event.write command]⟩
    else ⟨some DeskError.bleakError, s2, pre.events ++ [Event.write command]⟩

/-- `ErgomateDesk._on_disconnected` — the transport's asynchronous disconnect
callback: clears `self._is_connected` and `self._is_moving`, nothing else. -/
def on_disconnected (s : DeskState) : DeskState :=
  { s with is_connected := false, is_moving := false }

/-- `ErgomateDesk.disconnect` — set shutdown, cancel the monitor task if one
exists, best-effort `stop()` when moving and connected (exception caught and
logged), close the client if one exists (`BleakError` caught and logged), then
clear `self._is_connected` and `self._is_moving`. -/
def disconnect (t : Transport) (s : DeskState) : Step :=
  let s0 := { s with shutdown := true }
  let p1 : DeskState × List Event :=
    if s0.reconnectTask then ({ s0 with reconnectTask := false }, [Event.cancelSupervisor])
    else (s0, [])
  let p2 : DeskState × List Event :=
    if p1.1.is_moving && publicIsConnected p1.1 then
      let r := stop t p1.1
      (r.state, r.events)
    else (p1.1, [])
  let p3 : DeskState × List Event :=
    if p2.1.clientExists then (p2.1, [Event.clientDisconnect]) else (p2.1, [])
  ⟨none, { p3.1 with is_connected := false, is_moving := false },
   p1.2 ++ p2.2 ++ p3.2⟩

/-- The `for callback in self._callbacks` loop of `_handle_notification`:
every callback is invoked with the raw frame; a raising callback is caught by
the surrounding `except Exception` and logged, and iteration continues. -/
def run_callbacks (raises : Nat → Bool) (data : List Nat) : List Nat → List Event
  | [] => []
  | c :: rest => Event.cbInvoke c data (raises c) :: run_callbacks raises data rest

/-- `ErgomateDesk._handle_notification` — parse the frame; on success store
raw and current height; then forward the raw frame to every callback. -/
def handle_notification (t : Transport) (data : List Nat) (s : DeskState) : Step :=
  let p1 : DeskState × List Event :=
    match parse_height data with
    | some raw => ({ s with raw_height := some raw, current_height := some raw },
                   [Event.heightSet raw])
    | none => (s, [])
  ⟨none, p1.1, p1.2 ++ run_callbacks t.cbRaises data p1.1.callbacks⟩

/-- `ErgomateDesk.register_callback` — append only when not already present. -/
def register_callback (cb : Nat) (s : DeskState) : DeskState :=
  if cb ∈ s.callbacks then s else { s with callbacks := s.callbacks ++ [cb] }

/-- `ErgomateDesk.unregister_callback` — `list.remove` (first occurrence) only
when present. -/
def unregister_callback (cb : Nat) (s : DeskState) : DeskState :=
  if cb ∈ s.callbacks then { s with callbacks := s.callbacks.erase cb } else s

/-- Bytes that can occur anywhere in a 4-byte frame accepted by
`int(data.decode('ascii'))`: ASCII digits, strippable whitespace, a sign, or a
digit-group underscore. -/
def pyIntAllowedByte (b : Nat) : Bool :=
  b < 128 &&
    (let c := Char.ofNat b
     c.isDigit || isPySpace c || c == '+' || c == '-' || c == '_')

/-- A transport whose connection attempts fail. -/
def tFail : Transport := ⟨false, true, true, fun _ => false⟩

/-- A fully healthy transport. -/
def tOk : Transport := ⟨true, true, true, fun _ => false⟩

/-- A freshly created controller (never connected). -/
def sDisc : DeskState := init_desk "AA:BB:CC:DD:EE:FF" 0

/-- A controller with an established, healthy link and a running monitor task. -/
def sConn : DeskState :=
  { sDisc with
    is_connected := true
    clientExists := true
    clientConnected := true
    reconnectTask := true }

/-! ## Helper lemmas -/

theorem run_callbacks_eq_map (raises : Nat → Bool) (data : List Nat) (l : List Nat) :
    run_callbacks raises data l
      = l.map (fun c => Event.cbInvoke c data (raises c)) := by
  induction l with
  | nil => rfl
  | cons c rest ih => simp [run_callbacks, ih]

theorem parse_height_0720 : parse_height [48, 55, 50, 48] = some 72 := by
  have h : parse_height_mm [48, 55, 50, 48] = some 720 := by decide
  simp [parse_height, h]
  norm_num

theorem digitsTail_mem {l : List Char} (h : digitsTail l = true) :
    ∀ c ∈ l, c.isDigit = true ∨ c = '_' := by
  induction l using digitsTail.induct with
  | case1 => intro c hc; cases hc
  | case2 a =>
    intro c hc
    simp only [digitsTail] at h
    rcases List.mem_cons.mp hc with rfl | hc'
    · exact Or.inl h
    · cases hc'
  | case3 a b rest ha ih =>
    simp only [digitsTail, if_pos ha] at h
    intro c hc
    rcases List.mem_cons.mp hc with rfl | hc'
    · exact Or.inl ha
    · exact ih h c hc'
  | case4 a b rest ha ih =>
    simp only [digitsTail, if_neg ha, Bool.and_eq_true, beq_iff_eq] at h
    intro c hc
    rcases List.mem_cons.mp hc with rfl | hc'
    · exact Or.inr h.1.1
    · rcases List.mem_cons.mp hc' with rfl | hc''
      · exact Or.inl h.1.2
      · exact ih h.2 c hc''

theorem digitsUnd_mem {l : List Char} (h : digitsUnd l = true) :
    ∀ c ∈ l, c.isDigit = true ∨ c = '_' := by
  cases l with
  | nil => exact absurd h (by simp [digitsUnd])
  | cons a rest =>
    simp only [digitsUnd, Bool.and_eq_true] at h
    intro c hc
    rcases List.mem_cons.mp hc with rfl | hc'
    · exact Or.inl h.1
    · exact digitsTail_mem h.2 c hc'

theorem mem_trimPy {cs : List Char} {c : Char} (hc : c ∈ cs) :
    c ∈ trimPy cs ∨ isPySpace c = true := by
  by_cases hsp : isPySpace c = true
  · exact Or.inr hsp
  · left
    have step : ∀ (l : List Char), c ∈ l → c ∈ l.dropWhile isPySpace := by
      intro l hl
      have heq := List.takeWhile_append_dropWhile (p := isPySpace) (l := l)
      rw [← heq] at hl
      rcases List.mem_append.mp hl with h1 | h2
      · exact absurd (List.mem_takeWhile_imp h1) hsp
      · exact h2
    have h1 : c ∈ cs.dropWhile isPySpace := step cs hc
    have h2 : c ∈ (cs.dropWhile isPySpace).reverse := List.mem_reverse.mpr h1
    have h3 : c ∈ ((cs.dropWhile isPySpace).reverse).dropWhile isPySpace :=
      step _ h2
    exact List.mem_reverse.mpr h3

theorem pyIntOfChars_mem {cs : List Char} {v : Int}
    (h : pyIntOfChars cs = some v) :
    ∀ c ∈ cs, isPySpace c = true ∨ c.isDigit = true ∨ c = '+' ∨ c = '-' ∨ c = '_' := by
  intro c hc
  rcases mem_trimPy hc with htrim | hsp
  · -- c lies in the trimmed core, which the parser fully constrains
    rcases ht : trimPy cs with _ | ⟨a, rest⟩
    · rw [ht] at htrim; cases htrim
    · rw [ht] at htrim
      simp only [pyIntOfChars, ht] at h
      by_cases ha : a = '+'
      · rw [if_pos ha] at h
        by_cases hd : digitsUnd rest = true
        · rcases List.mem_cons.mp htrim with rfl | hc'
          · exact Or.inr (Or.inr (Or.inl ha))
          · rcases digitsUnd_mem hd c hc' with h1 | h1
            · exact Or.inr (Or.inl h1)
            · exact Or.inr (Or.inr (Or.inr (Or.inr h1)))
        · rw [if_neg hd] at h; exact absurd h (by simp)
      · rw [if_neg ha] at h
        by_cases hm : a = '-'
        · rw [if_pos hm] at h
          by_cases hd : digitsUnd rest = true
          · rcases List.mem_cons.mp htrim with rfl | hc'
            · exact Or.inr (Or.inr (Or.inr (Or.inl hm)))
            · rcases digitsUnd_mem hd c hc' with h1 | h1
              · exact Or.inr (Or.inl h1)
              · exact Or.inr (Or.inr (Or.inr (Or.inr h1)))
          · rw [if_neg hd] at h; exact absurd h (by simp)
        · rw [if_neg hm] at h
          by_cases hd : digitsUnd (a :: rest) = true
          · rcases digitsUnd_mem hd c htrim with h1 | h1
            · exact Or.inr (Or.inl h1)
            · exact Or.inr (Or.inr (Or.inr (Or.inr h1)))
          · rw [if_neg hd] at h; exact absurd h (by simp)
  · exact Or.inl hsp

theorem byte_split (c : Nat) (hc : c ≤ 1300) :
    (c >>> 8) &&& 0xFF = c / 256 ∧ c &&& 0xFF = c % 256 := by
  have hmask : ∀ x : Nat, x &&& 0xFF = x % 256 := by
    intro x
    have h8 := Nat.and_pow_two_sub_one_eq_mod x 8
    norm_num at h8
    exact h8
  refine ⟨?_, hmask c⟩
  rw [Nat.shiftRight_eq_div_pow, hmask]
  have h28 : c / 2 ^ 8 = c / 256 := by norm_num
  rw [h28]
  exact Nat.mod_eq_of_lt (by omega)

theorem ensure_connected_fail (t : Transport) (s : DeskState)
    (hdisc : publicIsConnected s = false) (hfail : t.connectOk = false) :
    ensure_connected t s
      = ⟨some DeskError.connectionError,
         { s with shutdown := false, clientExists := true, clientConnected := false },
         [Event.connectAttempt]⟩ := by
  have h2 : publicIsConnected { s with shutdown := false } = false := by
    simpa [publicIsConnected] using hdisc
  simp [ensure_connected, connect, establish_connection, hdisc, h2, hfail]

theorem send_command_fail (t : Transport) (cmd_byte : Nat) (s : DeskState)
    (hdisc : publicIsConnected s = false) (hfail : t.connectOk = false) :
    send_command t cmd_byte s
      = ⟨some DeskError.connectionError,
         { s with shutdown := false, clientExists := true, clientConnected := false },
         [Event.connectAttempt]⟩ := by
  simp [send_command, ensure_connected_fail t s hdisc hfail]

/-! ## Claim theorems -/

/-- Claim C3: for every command byte in {UP = 0x20, DOWN = 0x40, STOP = 0x00},
the directional-command encoder produces exactly the 5-byte frame
`[0xA5, 0x00, cmd, 0xFF XOR cmd, 0xFF]`, and an independent checksum verifier
(byte 3 = terminator XOR command) validates the encoded frame. -/
theorem directional_command_encoding (cmd : Nat)
    (h : cmd = CMD_UP ∨ cmd = CMD_DOWN ∨ cmd = CMD_STOP) :
    create_command cmd = [0xA5, 0x00, cmd, 0xFF ^^^ cmd, 0xFF] ∧
    (create_command cmd).length = 5 ∧
    directionalChecksumOk (create_command cmd) = true := by
  rcases h with h | h | h <;> subst h <;> exact ⟨rfl, rfl, by decide⟩

theorem directional_command_encoding_witness :
    (CMD_UP = CMD_UP ∨ CMD_UP = CMD_DOWN ∨ CMD_UP = CMD_STOP) ∧
    (create_command CMD_UP = [0xA5, 0x00, CMD_UP, 0xFF ^^^ CMD_UP, 0xFF] ∧
     (create_command CMD_UP).length = 5 ∧
     directionalChecksumOk (create_command CMD_UP) = true) :=
  ⟨Or.inl rfl, directional_command_encoding CMD_UP (Or.inl rfl)⟩

/-- Claim C4: for every integer height, the absolute-height encoder first
clamps to `[650, 1300]` and then emits the 9-byte frame
`[0xA6, 0xA8, 0x01, HB, LB, 0x00, 0x00, CHECKSUM, 0xFF]` with `HB`/`LB` the
big-endian split of the clamped value and the checksum XORing bytes 2–6 only
(the 0xA8 command byte excluded); in particular
`encodeHeight 2000 = encodeHeight 1300` and `encodeHeight 0 = encodeHeight 650`. -/
theorem height_command_encoding (h : Int) :
    create_height_command h = create_height_command (max 650 (min 1300 h)) ∧
    create_height_command h
      = [0xA6, 0xA8, 0x01,
         (max 650 (min 1300 h)).toNat / 256, (max 650 (min 1300 h)).toNat % 256,
         0x00, 0x00,
         0x01 ^^^ (max 650 (min 1300 h)).toNat / 256 ^^^ (max 650 (min 1300 h)).toNat % 256,
         0xFF] ∧
    (create_height_command h).length = 9 ∧
    heightChecksumOk (create_height_command h) = true ∧
    create_height_command 2000 = create_height_command 1300 ∧
    create_height_command 0 = create_height_command 650 := by
  have hb1 : (650 : Int) ≤ max 650 (min 1300 h) := le_max_left _ _
  have hb2 : max 650 (min 1300 h) ≤ 1300 := max_le (by norm_num) (min_le_left _ _)
  have hidem : max 650 (min 1300 (max 650 (min 1300 h))) = max 650 (min 1300 h) := by
    rw [min_eq_right hb2, max_eq_right hb1]
  have hle : (max 650 (min 1300 h)).toNat ≤ 1300 := by omega
  obtain ⟨hhi, hlo⟩ := byte_split (max 650 (min 1300 h)).toNat hle
  refine ⟨?_, ?_, ?_, ?_, by decide, by decide⟩
  · simp only [create_height_command, hidem]
  · simp only [create_height_command, hhi, hlo, Nat.xor_zero]
  · simp only [create_height_command, List.length]
  · simp only [create_height_command, heightChecksumOk, beq_self_eq_true]

/-- Claim C6: the transport's asynchronous disconnect callback forces the link
state to Disconnected and clears `is_moving`, while the last height reading
(raw and corrected) is left untouched. -/
theorem disconnect_callback_state (s : DeskState) :
    (on_disconnected s).is_connected = false ∧
    publicIsConnected (on_disconnected s) = false ∧
    (on_disconnected s).is_moving = false ∧
    (on_disconnected s).raw_height = s.raw_height ∧
    (on_disconnected s).current_height = s.current_height := by
  simp [on_disconnected, publicIsConnected]

/-- Claim C10: subscriber registration is idempotent — registering a handler
already present leaves the list unchanged (and the list never acquires
duplicates), and unregistering an absent handler leaves the list unchanged. -/
theorem callback_registry_idempotent (cb : Nat) (s : DeskState) :
    (cb ∈ s.callbacks → register_callback cb s = s) ∧
    (cb ∉ s.callbacks → unregister_callback cb s = s) ∧
    (s.callbacks.Nodup → (register_callback cb s).callbacks.Nodup) ∧
    (s.callbacks.Nodup → (unregister_callback cb s).callbacks.Nodup) := by
  refine ⟨fun hmem => ?_, fun hmem => ?_, fun hnd => ?_, fun hnd => ?_⟩
  · rw [register_callback, if_pos hmem]
  · rw [unregister_callback, if_neg hmem]
  · rw [register_callback]
    by_cases hmem : cb ∈ s.callbacks
    · rw [if_pos hmem]; exact hnd
    · rw [if_neg hmem]
      simp only [List.nodup_append, List.nodup_cons, List.nodup_nil]
      exact ⟨hnd, ⟨by simp, trivial⟩, by simpa [List.disjoint_singleton] using hmem⟩
  · rw [unregister_callback]
    by_cases hmem : cb ∈ s.callbacks
    · rw [if_pos hmem]; exact hnd.erase cb
    · rw [if_neg hmem]; exact hnd

theorem callback_registry_idempotent_witness :
    (1 ∈ ({ sDisc with callbacks := [1, 2] } : DeskState).callbacks ∧
     register_callback 1 { sDisc with callbacks := [1, 2] }
       = { sDisc with callbacks := [1, 2] }) ∧
    (3 ∉ ({ sDisc with callbacks := [1, 2] } : DeskState).callbacks ∧
     unregister_callback 3 { sDisc with callbacks := [1, 2] }
       = { sDisc with callbacks := [1, 2] }) :=
  ⟨⟨by decide,
    (callback_registry_idempotent 1 { sDisc with callbacks := [1, 2] }).1 (by decide)⟩,
   ⟨by decide,
    (callback_registry_idempotent 3 { sDisc with callbacks := [1, 2] }).2.1 (by decide)⟩⟩

/-- Claim C5: a movement command issued while disconnected performs exactly
one reconnect attempt (re-arming notifications when subscribers exist); when
that attempt fails the call raises the connectivity error and the link stays
disconnected. -/
theorem command_reconnect_once (t : Transport) (s : DeskState)
    (hdisc : publicIsConnected s = false) (hfail : t.connectOk = false) :
    ((move_up t s).err = some DeskError.connectionError ∧
     (move_up t s).events = [Event.connectAttempt] ∧
     publicIsConnected (move_up t s).state = false) ∧
    ((move_down t s).err = some DeskError.connectionError ∧
     (move_down t s).events = [Event.connectAttempt] ∧
     publicIsConnected (move_down t s).state = false) ∧
    ((stop t s).err = some DeskError.connectionError ∧
     (stop t s).events = [Event.connectAttempt] ∧
     publicIsConnected (stop t s).state = false) ∧
    (∀ x : ℚ, (move_to_height t x s).err = some DeskError.connectionError ∧
      (move_to_height t x s).events = [Event.connectAttempt] ∧
      publicIsConnected (move_to_height t x s).state = false) ∧
    (∀ t' : Transport, t'.connectOk = true → s.callbacks ≠ [] →
      Event.startNotify ∈ (move_up t' s).events) := by
  have hdisc' : publicIsConnected { s with is_moving := true } = false := by
    simpa [publicIsConnected] using hdisc
  refine ⟨?_, ?_, ?_, ?_, ?_⟩
  · simp [move_up, send_command_fail t CMD_UP _ hdisc' hfail, publicIsConnected]
  · simp [move_down, send_command_fail t CMD_DOWN _ hdisc' hfail, publicIsConnected]
  · simp [stop, send_command_fail t CMD_STOP s hdisc hfail, publicIsConnected]
  · intro x
    simp [move_to_height, ensure_connected_fail t s hdisc hfail, publicIsConnected]
  · intro t' hok hcb
    have hne : s.callbacks.isEmpty = false := by
      simpa [List.isEmpty_iff] using hcb
    have hkey : ¬((s.is_connected = true ∧ s.clientExists = true) ∧
        s.clientConnected = true) := by
      rintro ⟨⟨h1, h2⟩, h3⟩
      simp only [publicIsConnected, h1, h2, h3] at hdisc
      exact absurd hdisc (by simp)
    cases hrt : s.reconnectTask <;> cases hnot : t'.notifyOk <;> cases hwr : t'.writeOk <;>
      simp [move_up, send_command, ensure_connected, connect, establish_connection,
            subscribe_notifications, publicIsConnected, hkey, hok, hne, hrt, hnot, hwr]

theorem command_reconnect_once_witness :
    (publicIsConnected sDisc = false ∧ tFail.connectOk = false) ∧
    (move_up tFail sDisc).err = some DeskError.connectionError ∧
    (move_up tFail sDisc).events = [Event.connectAttempt] ∧
    publicIsConnected (move_up tFail sDisc).state = false :=
  ⟨⟨by decide, by decide⟩, (command_reconnect_once tFail sDisc (by decide) (by decide)).1⟩

/-- Claim C7: `move_up`/`move_down`/`move_to_height` set the moving flag
strictly before the transport write (so it is true even when the write
raises), while `stop` clears it only after a successful write (a failing
`stop` leaves it unchanged). -/
theorem optimistic_moving_flag (t : Transport) (s : DeskState)
    (hconn : publicIsConnected s = true) :
    (move_up t s).state.is_moving = true ∧
    (move_down t s).state.is_moving = true ∧
    (∀ x : ℚ, (move_to_height t x s).state.is_moving = true) ∧
    (move_up t s).events = [Event.write (create_command CMD_UP)] ∧
    (t.writeOk = false → (move_up t s).err = some DeskError.bleakError) ∧
    ((stop t s).err = none → (stop t s).state.is_moving = false) ∧
    ((stop t s).err ≠ none → (stop t s).state.is_moving = s.is_moving) := by
  obtain ⟨⟨h1, h2⟩, h3⟩ :
      (s.is_connected = true ∧ s.clientExists = true) ∧ s.clientConnected = true := by
    simpa [publicIsConnected] using hconn
  have hstopT : t.writeOk = true →
      stop t s = ⟨none, { s with is_moving := false },
        [Event.write (create_command CMD_STOP)]⟩ := by
    intro hwr
    simp [stop, send_command, ensure_connected, publicIsConnected, h1, h2, h3, hwr]
  have hstopF : t.writeOk = false →
      stop t s = ⟨some DeskError.bleakError, s,
        [Event.write (create_command CMD_STOP)]⟩ := by
    intro hwr
    simp [stop, send_command, ensure_connected, publicIsConnected, h1, h2, h3, hwr]
  refine ⟨?_, ?_, ?_, ?_, ?_, ?_, ?_⟩
  · cases hwr : t.writeOk <;>
      simp [move_up, send_command, ensure_connected, publicIsConnected, h1, h2, h3, hwr]
  · cases hwr : t.writeOk <;>
      simp [move_down, send_command, ensure_connected, publicIsConnected, h1, h2, h3, hwr]
  · intro x
    cases hwr : t.writeOk <;>
      simp [move_to_height, ensure_connected, publicIsConnected, h1, h2, h3, hwr]
  · cases hwr : t.writeOk <;>
      simp [move_up, send_command, ensure_connected, publicIsConnected, h1, h2, h3, hwr]
  · intro hwr
    simp [move_up, send_command, ensure_connected, publicIsConnected, h1, h2, h3, hwr]
  · intro herr
    cases hwr : t.writeOk
    · rw [hstopF hwr] at herr; cases herr
    · rw [hstopT hwr]
  · intro herr
    cases hwr : t.writeOk
    · rw [hstopF hwr]
    · rw [hstopT hwr] at herr; exact absurd rfl herr

theorem optimistic_moving_flag_witness :
    (publicIsConnected sConn = true ∧
     (⟨true, false, true, fun _ => false⟩ : Transport).writeOk = false) ∧
    (move_up ⟨true, false, true, fun _ => false⟩ sConn).state.is_moving = true ∧
    (move_up ⟨true, false, true, fun _ => false⟩ sConn).err = some DeskError.bleakError :=
  ⟨⟨by decide, by decide⟩,
   (optimistic_moving_flag ⟨true, false, true, fun _ => false⟩ sConn (by decide)).1,
   (optimistic_moving_flag ⟨true, false, true, fun _ => false⟩ sConn (by decide)).2.2.2.2.1 rfl⟩

/-- Claim C8: `disconnect` cancels the supervisor first, then (moving over a
healthy link) writes a stop frame — whose failure is swallowed — then closes
the client session, and finally the link state is Disconnected. -/
theorem disconnect_ordering (t : Transport) (s : DeskState)
    (htask : s.reconnectTask = true) (hmov : s.is_moving = true)
    (hconn : publicIsConnected s = true) :
    (disconnect t s).events
      = [Event.cancelSupervisor, Event.write (create_command CMD_STOP),
         Event.clientDisconnect] ∧
    (disconnect t s).err = none ∧
    (disconnect t s).state.is_connected = false ∧
    (disconnect t s).state.is_moving = false ∧
    publicIsConnected (disconnect t s).state = false := by
  obtain ⟨⟨h1, h2⟩, h3⟩ :
      (s.is_connected = true ∧ s.clientExists = true) ∧ s.clientConnected = true := by
    simpa [publicIsConnected] using hconn
  cases hwr : t.writeOk <;>
    simp [disconnect, stop, send_command, ensure_connected, publicIsConnected,
          htask, hmov, h1, h2, h3, hwr]

theorem disconnect_ordering_witness :
    (sConn.reconnectTask = true ∧ sConn.is_moving = false ∧
     ({ sConn with is_moving := true } : DeskState).is_moving = true ∧
     publicIsConnected { sConn with is_moving := true } = true) ∧
    (disconnect tOk { sConn with is_moving := true }).events
      = [Event.cancelSupervisor, Event.write (create_command CMD_STOP),
         Event.clientDisconnect] :=
  ⟨⟨by decide, by decide, by decide, by decide⟩,
   (disconnect_ordering tOk { sConn with is_moving := true }
     (by decide) (by decide) (by decide)).1⟩

/-- Claim C9: a decoded height updates the raw and corrected height before any
subscriber runs; all subscribers are then invoked with the raw frame in
registration order, and a raising subscriber is caught, so later subscribers
still run and controller state is untouched. -/
theorem inbound_frame_dispatch (t : Transport) (data : List Nat) (s : DeskState) :
    (handle_notification t data s).err = none ∧
    (handle_notification t data s).state.callbacks = s.callbacks ∧
    (∀ hgt : ℚ, parse_height data = some hgt →
      (handle_notification t data s).state.raw_height = some hgt ∧
      (handle_notification t data s).state.current_height = some hgt ∧
      (handle_notification t data s).events
        = Event.heightSet hgt
            :: s.callbacks.map (fun c => Event.cbInvoke c data (t.cbRaises c))) ∧
    (parse_height data = none →
      (handle_notification t data s).state = s ∧
      (handle_notification t data s).events
        = s.callbacks.map (fun c => Event.cbInvoke c data (t.cbRaises c))) := by
  cases hp : parse_height data <;>
    simp [handle_notification, hp, run_callbacks_eq_map]

theorem inbound_frame_dispatch_witness :
    parse_height [48, 55, 50, 48] = some 72 ∧
    (handle_notification ⟨true, true, true, fun c => c == 1⟩ [48, 55, 50, 48]
        { sConn with callbacks := [1, 2] }).events
      = [Event.heightSet 72, Event.cbInvoke 1 [48, 55, 50, 48] true,
         Event.cbInvoke 2 [48, 55, 50, 48] false] := by
  refine ⟨parse_height_0720, ?_⟩
  have h := (inbound_frame_dispatch ⟨true, true, true, fun c => c == 1⟩
      [48, 55, 50, 48] { sConn with callbacks := [1, 2] }).2.2.1 72 parse_height_0720
  simpa using h.2.2

/-- Claim C1 (code bug): the spec demands `correctedHeight = rawHeight +
HeightOffset`, and the constructor docstring says the offset is applied to raw
readings, but `_handle_notification` stores the raw height into
`_current_height` unchanged: with offset 1, the frame b"0720" yields corrected
height 72.0 instead of 73.0. -/
theorem height_offset_ignored :
    (init_desk "AA:BB:CC:DD:EE:FF" 1).height_offset = 1 ∧
    (handle_notification tOk [48, 55, 50, 48]
        (init_desk "AA:BB:CC:DD:EE:FF" 1)).state.raw_height = some 72 ∧
    (handle_notification tOk [48, 55, 50, 48]
        (init_desk "AA:BB:CC:DD:EE:FF" 1)).state.current_height = some 72 ∧
    (72 : ℚ) + (init_desk "AA:BB:CC:DD:EE:FF" 1).height_offset ≠ 72 := by
  refine ⟨rfl, ?_, ?_, by norm_num [init_desk]⟩ <;>
    simp [handle_notification, parse_height_0720]

/-- Claim C2 is refuted as stated: b"+720" is 4 bytes long and contains the
non-digit byte 0x2B (`+`), yet the decoder returns 72.0, not None. -/
theorem nondigit_frame_parses :
    ([43, 55, 50, 48] : List Nat).length = 4 ∧
    (Char.ofNat 43).isDigit = false ∧
    parse_height [43, 55, 50, 48] = some 72 := by
  refine ⟨rfl, by decide, ?_⟩
  have h : parse_height_mm [43, 55, 50, 48] = some 720 := by decide
  simp [parse_height, h]
  norm_num

/-- Claim C2 (amended): the decoder returns None (never raises) for every
length other than 4 bytes and for every frame containing a byte outside the
character classes Python's `int` accepts (ASCII digit, whitespace, sign,
digit-group underscore); b"0720" decodes to 72.0 and b"12AB", b"007", b""
all yield None. -/
theorem parse_height_amended :
    (∀ d : List Nat, d.length ≠ 4 → parse_height d = none) ∧
    (∀ d : List Nat, (∃ b ∈ d, pyIntAllowedByte b = false) → parse_height d = none) ∧
    parse_height [48, 55, 50, 48] = some 72 ∧
    parse_height [49, 50, 65, 66] = none ∧
    parse_height [48, 48, 55] = none ∧
    parse_height [] = none := by
  refine ⟨?_, ?_, parse_height_0720, by decide, by decide, by decide⟩
  · intro d hlen
    simp [parse_height, parse_height_mm, hlen]
  · rintro d ⟨b, hbmem, hbad⟩
    rw [parse_height]
    suffices hmm : parse_height_mm d = none by rw [hmm]; rfl
    rw [parse_height_mm]
    by_cases hlen : d.length = 4
    · rw [if_pos hlen]
      by_cases hall : d.all (· < 128) = true
      · rw [if_pos hall]
        have hblt : b < 128 := by
          simpa using List.all_eq_true.mp hall b hbmem
        cases hpi : pyIntOfChars (d.map (fun b => Char.ofNat b)) with
        | none => rfl
        | some v =>
          have hm := pyIntOfChars_mem hpi (Char.ofNat b)
            (List.mem_map_of_mem _ hbmem)
          have hTrue : pyIntAllowedByte b = true := by
            rcases hm with h1 | h1 | h1 | h1 | h1 <;>
              simp [pyIntAllowedByte, hblt, h1]
          simp [hTrue] at hbad
      · rw [if_neg hall]
    · rw [if_neg hlen]

theorem parse_height_amended_witness :
    (([48, 48, 55] : List Nat).length ≠ 4 ∧ parse_height [48, 48, 55] = none) ∧
    ((∃ b ∈ ([49, 50, 65, 66] : List Nat), pyIntAllowedByte b = false) ∧
     parse_height [49, 50, 65, 66] = none) :=
  ⟨⟨by decide, parse_height_amended.1 [48, 48, 55] (by decide)⟩,
   ⟨by decide, parse_height_amended.2.1 [49, 50, 65, 66] (by decide)⟩⟩

end Ergomate

